import Mathlib

/-
Verification of the J-Bot job-alert pipeline.

This file gives a shallow embedding of the core of the repository:
the multi-stage job filter (`filterJob`), the relevance scorer (`scoreJob`),
the stable-id generator (`generateStableId`), the date predicates
(`isWithinTimeWindow`, `isJobNewerThan`), the incremental fetch filter,
and the dedup/alert loops of the timer handler, all translated from
`src/functions/jobChecker.js` (whose inline keyword tables and helpers agree
with the copies in `src/services/jobFilter.js`, `src/services/jobScorer.js`,
`src/services/jobFetcher.js` and `src/models/job.js`).

JavaScript strings are modelled as Lean `String`/`List Char`; absent (null or
undefined) string fields are modelled as the empty string, matching the
pervasive `job.field || ''` defaulting in the source.  Wall-clock time
(`new Date()`) is passed in explicitly as an integer count of epoch
milliseconds.  JavaScript numbers that the code treats as timestamps are
modelled as `Int`.
-/

/-- Character-wise ASCII lowercasing, modelling JS `String.prototype.toLowerCase`
on the ASCII texts this repository manipulates. -/
def lowerChars (s : String) : List Char :=
  s.toList.map Char.toLower

/-- Models JS `text.includes(pat)`: `pat` occurs as a contiguous substring of `text`. -/
def jsIncludes : List Char → List Char → Bool
  | [], pat => pat.isPrefixOf ([] : List Char)
  | c :: rest, pat => pat.isPrefixOf (c :: rest) || jsIncludes rest pat

/-- Word characters of the JS regex class backslash-w: ASCII letters, digits, underscore. -/
def isWordChar (c : Char) : Bool :=
  c.isAlphanum || c == '_'

def isWordCharO : Option Char → Bool
  | none => false
  | some c => isWordChar c

/-- A JS regex word boundary sits between two positions exactly when one side is a
word character and the other is not (string edges count as non-word). -/
def boundaryBetween (a b : Option Char) : Bool :=
  isWordCharO a != isWordCharO b

/-- Does `pat`, wrapped in word-boundary anchors, occur in the text?  `prev` is the
character immediately before the current position (`none` at the start). -/
def boundaryOccurs (pat : List Char) : Option Char → List Char → Bool
  | prev, [] =>
    pat.isPrefixOf ([] : List Char) && boundaryBetween prev pat.head? &&
      boundaryBetween pat.getLast? none
  | prev, c :: rest =>
    (pat.isPrefixOf (c :: rest) && boundaryBetween prev pat.head? &&
      boundaryBetween pat.getLast? (((c :: rest).drop pat.length).head?))
    || boundaryOccurs pat (some c) rest

/-- The effective literal of the regex the source builds from a keyword.
`containsKeyword` interpolates the raw keyword into a regex without escaping;
for the keyword sets of this repository the only regex metacharacters that can
appear are the parentheses in the India keyword "(IN)", which act as a capturing
group, so the effective pattern is the keyword with parentheses removed. -/
def regexLiteral (kw : List Char) : List Char :=
  kw.filter fun c => !(c == '(') && !(c == ')')

/-- Models the JS test of the regex built by string interpolation of `kw` between
two word-boundary anchors, as done in `containsKeyword`. -/
def regexWordBoundaryTest (kw text : List Char) : Bool :=
  boundaryOccurs (regexLiteral kw) none text

/-- The date value attached to a fetched job, as the JS code sees it:
absent (`noDate`, i.e. null or undefined), a JS number (`numDate`), or a string.
`strDate` carries the string together with the result of the external JS
`Date.parse` on it as epoch milliseconds (`none` when the runtime yields NaN),
since the host date parser is an external collaborator of the core. -/
inductive DateInput where
  | noDate : DateInput
  | numDate (n : Int) : DateInput
  | strDate (s : String) (parsed : Option Int) : DateInput
deriving DecidableEq

/-- JS falsiness of a date value (`!jobDate`): null or undefined, the number 0,
or the empty string. -/
def isFalsyDate : DateInput → Bool
  | .noDate => true
  | .numDate n => n == 0
  | .strDate s _ => s == ""

/-- The epoch-milliseconds value a job date resolves to in `isWithinTimeWindow`,
`isJobNewerThan` and `getDaysSince`: a number below 10000000000 is taken to be
seconds and multiplied by 1000, larger numbers are milliseconds, and a string
goes through the host date parser.  `none` means an invalid date (NaN). -/
def toMs : DateInput → Option Int
  | .noDate => none
  | .numDate n => some (if n < 10000000000 then n * 1000 else n)
  | .strDate _ p => p

/-- The epoch-milliseconds value of `new Date(x)` as applied to the last-run
watermark: a JS number is taken as milliseconds directly (no seconds heuristic),
a string goes through the host date parser. -/
def newDateMs : DateInput → Option Int
  | .noDate => none
  | .numDate n => some n
  | .strDate _ p => p

/-- A normalized job record as produced by the source adapters.  String fields
default to the empty string (modelling null/undefined); `salary` is kept
optional because the scorer distinguishes a missing salary from a present one. -/
structure Job where
  title : String := ""
  description : String := ""
  location : String := ""
  company_name : String := ""
  url : String := ""
  source : String := ""
  salary : Option String := none
  job_type : String := ""
  date : DateInput := .noDate
deriving DecidableEq

/-- The result of `filterJob`.  The JS object has a `match` field; `match` is a
reserved word in Lean, so the field is named `matched` here.  Fields the JS
object omits on some paths are `Option`s defaulting to `none`. -/
structure FilterResult where
  matched : Bool
  reason : Option String := none
  matchedKeyword : Option String := none
deriving DecidableEq

/-- Keyword table from `src/functions/jobChecker.js` (INCLUDE_KEYWORDS). -/
def INCLUDE_KEYWORDS : List String := [
  "Azure", "Microsoft Azure", "Azure DevOps", "Azure Cloud",
  "AWS", "GCP", "Google Cloud", "Multi-cloud", "Cloud Engineer",
  "Cloud Administrator", "Cloud Architect", "Cloud Operations",
  "Cloud Infrastructure", "Cloud Platform",
  "Security", "Cybersecurity", "DevSecOps", "AppSec", "InfoSec",
  "SOC", "VAPT", "Ethical Hacking", "Penetration Testing",
  "DevOps", "Kubernetes", "Docker", "Terraform", "Ansible",
  "Infrastructure", "Site Reliability", "Platform Engineering",
  "Network Engineer", "Network Security", "Network Infrastructure"]

/-- Keyword table from `src/functions/jobChecker.js` (ENTRY_LEVEL_KEYWORDS). -/
def ENTRY_LEVEL_KEYWORDS : List String := [
  "Intern", "Internship", "Junior", "Entry", "Fresher", "Graduate",
  "0-1 year", "0 year", "1 year", "1-2 year", "1-2 years", "0-2 year", "0-2 years",
  "Entry Level", "Entry-Level"]

/-- Keyword table from `src/functions/jobChecker.js` (EXCLUDE_KEYWORDS). -/
def EXCLUDE_KEYWORDS : List String :=
  ["3+ years", "4+ years", "5+ years", "6+ years", "Senior", "Lead", "Manager",
   "Architect", "Principal"]

/-- Keyword table from `src/functions/jobChecker.js` (NON_TECHNICAL_KEYWORDS). -/
def NON_TECHNICAL_KEYWORDS : List String := [
  "Help Desk", "Helpdesk", "L1 Support", "L2 Support",
  "Desktop Support", "Service Desk",
  "Customer Support", "Customer Service", "Client Support",
  "Sales Executive", "Business Development", "BDM", "BDE",
  "Account Manager", "Relationship Manager", "Customer Success",
  "Pre-Sales", "Presales", "Social Media",
  "Data Entry", "Back Office", "Content Creator", "Community Manager",
  "Recruiter", "HR Executive", "Human Resources",
  "Manual Testing",
  "Software Developer", "Software Engineer", "Backend Developer",
  "Frontend Developer", "Full Stack Developer", "Programmer",
  "Mobile Developer", "Android Developer", "iOS Developer",
  "Machine Learning Engineer", "Data Scientist", "AI Engineer",
  "Buchhalter", "Controller"]

/-- Keyword table from `src/functions/jobChecker.js` (PURE_TECHNICAL_KEYWORDS). -/
def PURE_TECHNICAL_KEYWORDS : List String := [
  "Cloud Engineer", "Cloud Administrator", "Cloud Architect", "Cloud Consultant",
  "Cloud Operations", "Cloud Support Engineer", "Cloud Analyst",
  "Solutions Architect", "Infrastructure Engineer", "Infrastructure Analyst",
  "Azure Engineer", "Azure Administrator", "Azure Architect", "Azure Consultant",
  "DevOps Engineer", "DevOps Analyst", "Platform Engineer",
  "Site Reliability Engineer", "Systems Engineer", "Systems Administrator",
  "Network Administrator", "Network Engineer",
  "Security Engineer", "Security Analyst", "Cybersecurity Engineer", "DevSecOps Engineer",
  "SOC Analyst", "Vulnerability Analyst", "Security Operations",
  "Penetration Tester", "InfoSec", "AppSec",
  "Graduate Engineer Trainee", "Associate Engineer", "Trainee Engineer",
  "Technology Analyst",
  "Cloud Associate", "Infrastructure Associate"]

/-- Keyword table from `src/functions/jobChecker.js` (INDIA_KEYWORDS). -/
def INDIA_KEYWORDS : List String :=
  ["India", "Bharat", ", IN", "(IN)", "Indian"]

/-- Keyword table from `src/functions/jobChecker.js` (PREFERRED_CITIES). -/
def PREFERRED_CITIES : List String := [
  "Bangalore", "Bengaluru",
  "Pune",
  "Gurgaon", "Gurugram",
  "Delhi", "NCR", "Delhi NCR", "New Delhi",
  "Hyderabad",
  "Jaipur",
  "Noida",
  "Mumbai", "Bombay",
  "Chennai", "Madras",
  "Kolkata",
  "Ahmedabad",
  "Coimbatore",
  "Trivandrum", "Thiruvananthapuram",
  "Kochi", "Cochin",
  "Indore",
  "Chandigarh",
  "Anywhere in India", "PAN India", "Pan India"]

/-- Company table from `src/functions/jobChecker.js` (FRESHER_FRIENDLY_COMPANIES). -/
def FRESHER_FRIENDLY_COMPANIES : List String := [
  "Microsoft", "Google", "Amazon", "AWS", "IBM", "Oracle", "SAP", "Adobe", "Apple", "Meta", "Facebook",
  "TCS", "Tata Consultancy", "Infosys", "Wipro", "HCL", "Tech Mahindra", "LTI", "LTIMindtree", "Mindtree",
  "Cognizant", "Mphasis", "Hexaware", "Persistent", "Coforge",
  "Accenture", "Deloitte", "Capgemini", "EY", "PwC", "KPMG", "Genpact", "DXC Technology",
  "Cloudflare", "Atlassian", "HashiCorp", "Red Hat", "VMware", "Nutanix", "Cisco",
  "Palo Alto Networks", "CrowdStrike", "Fortinet", "Zscaler", "McAfee", "Symantec", "Check Point",
  "Rapid7", "Qualys", "Trend Micro",
  "Zoho", "Freshworks", "PayTM", "Paytm", "PhonePe", "Razorpay", "Zomato", "Swiggy", "Flipkart", "Ola",
  "MakeMyTrip", "BookMyShow", "Nykaa", "CRED", "Udaan", "Meesho", "Dunzo", "Urban Company",
  "Walmart", "Target", "Myntra", "Shopify", "Amazon India",
  "JP Morgan", "Goldman Sachs", "Morgan Stanley", "Barclays", "HSBC", "Mastercard", "Visa",
  "American Express", "Deutsche Bank", "Paytm Payments Bank", "ICICI Bank", "HDFC Bank",
  "Salesforce", "ServiceNow", "Workday", "Intuit", "PayPal", "Stripe", "Square", "Qualcomm",
  "Intel", "AMD", "NVIDIA", "Broadcom", "Texas Instruments",
  "Chevron", "Shell", "BP", "ExxonMobil", "Schlumberger", "Halliburton",
  "Jio", "Reliance Jio", "Airtel", "Vodafone", "Nokia", "Ericsson",
  "Boston Consulting", "BCG", "McKinsey", "Bain", "Booz Allen"]

/-- Models `containsKeyword(text, keywords)`: case-insensitive keyword search
where keywords of at most 4 characters are tested through a word-boundary
regex and longer keywords through plain substring containment. -/
def containsKeyword (text : String) (keywords : List String) : Bool :=
  if text == "" then false
  else
    let lowerText := lowerChars text
    keywords.any fun keyword =>
      let lowerKeyword := lowerChars keyword
      if lowerKeyword.length ≤ 4 then regexWordBoundaryTest lowerKeyword lowerText
      else jsIncludes lowerText lowerKeyword

/-- The foreign-location tokens rejected by `isIndiaLocation`
(local array `foreignIndicators` in the source). -/
def foreignIndicators : List String :=
  ["germany", "berlin", "munich", "frankfurt", "hamburg", "dortmund",
   "united states", "usa", "u.s.", "new york", "san francisco", "seattle",
   "united kingdom", "london", "uk ", " uk,",
   "canada", "toronto", "vancouver",
   "australia", "sydney", "melbourne",
   "singapore", "netherlands", "france", "paris",
   "europe", "european union"]

/-- Models `isIndiaLocation(job)`: empty location fails; a location containing the
Reddit placeholder "Check post" is provisionally accepted; a known foreign token
rejects; otherwise an India keyword, a preferred city, or a remote token accepts. -/
def isIndiaLocation (job : Job) : Bool :=
  let location := job.location
  if location == "" then false
  else if jsIncludes location.toList "Check post".toList then true
  else
    let lowerLocation := lowerChars location
    if foreignIndicators.any fun f => jsIncludes lowerLocation f.toList then false
    else
      let isIndia := INDIA_KEYWORDS.any fun kw => jsIncludes lowerLocation (lowerChars kw)
      let isPreferredCity := PREFERRED_CITIES.any fun city =>
        jsIncludes lowerLocation (lowerChars city)
      let isRemoteAcceptable := ["remote", "work from home", "wfh", "anywhere"].any fun r =>
        jsIncludes lowerLocation r.toList
      isIndia || isPreferredCity || isRemoteAcceptable

/-- Models `isFresherFriendlyCompany(job)`: case-insensitive substring match of the
company name against the curated company table. -/
def isFresherFriendlyCompany (job : Job) : Bool :=
  let companyName := job.company_name
  if companyName == "" then false
  else
    let lowerCompany := lowerChars companyName
    FRESHER_FRIENDLY_COMPANIES.any fun company => jsIncludes lowerCompany (lowerChars company)

/-- Value of JS `parseInt` on a run of decimal digits. -/
def digitsToNat (ds : List Char) : Nat :=
  ds.foldl (fun acc c => acc * 10 + (c.toNat - '0'.toNat)) 0

/-- Scanner behind `combinedText.match(/(\d+)\s*\+?\s*years?/gi)`: collects, in order,
the leading numbers of all matches of digits, optional spaces, an optional plus,
optional spaces, then "year" with an optional "s".  Scanning resumes after the end
of each match and otherwise advances one character, as the JS global regex does.
`fuel` bounds the scan; every step consumes at least one character, so
instantiating it with the text length is exact. -/
def extractYearsAux : Nat → List Char → List Nat
  | 0, _ => []
  | _ + 1, [] => []
  | fuel + 1, c :: rest =>
    if c.isDigit then
      let digits := (c :: rest).takeWhile Char.isDigit
      let afterDigits := (c :: rest).dropWhile Char.isDigit
      let afterSpace1 := afterDigits.dropWhile Char.isWhitespace
      let afterPlus := if afterSpace1.head? == some '+' then afterSpace1.drop 1 else afterSpace1
      let afterSpace2 := afterPlus.dropWhile Char.isWhitespace
      if ['y', 'e', 'a', 'r'].isPrefixOf afterSpace2 then
        let afterYear := afterSpace2.drop 4
        let afterMatch := if afterYear.head? == some 's' then afterYear.drop 1 else afterYear
        digitsToNat digits :: extractYearsAux fuel afterMatch
      else
        extractYearsAux fuel rest
    else
      extractYearsAux fuel rest

/-- All year-numbers mentioned in the text (lowercased before scanning, which is
equivalent to the case-insensitive regex flag of the source). -/
def extractYears (text : List Char) : List Nat :=
  extractYearsAux text.length text

/-- The combined text `title description` (space-separated) that the filter,
scorer and extractors all search, with the `|| ''` defaulting of the source. -/
def combinedText (job : Job) : String :=
  job.title ++ " " ++ job.description

/-- Is the job a Reddit community post (`job.source && job.source.includes('Reddit')`)? -/
def isRedditPost (job : Job) : Bool :=
  job.source != "" && jsIncludes job.source.toList "Reddit".toList

/-- Stages 2 to 6 of `filterJob`, which depend only on the combined text:
seniority exclusion, non-technical exclusion, pure-technical requirement,
domain-keyword requirement, and the experience-years gate, each returning the
stage reason on first failure, then the matched-keyword lookup. -/
def filterAfterLocation (ct : String) : FilterResult :=
  if containsKeyword ct EXCLUDE_KEYWORDS then
    { matched := false, reason := some "Excluded due to senior/experience requirement" }
  else if containsKeyword ct NON_TECHNICAL_KEYWORDS then
    { matched := false, reason := some "Non-technical or support role (excluded)" }
  else
    let isPureTechnical := containsKeyword ct PURE_TECHNICAL_KEYWORDS
    if !isPureTechnical then
      { matched := false, reason := some "Not a pure technical role" }
    else
      let hasRequiredKeyword := containsKeyword ct INCLUDE_KEYWORDS
      if !hasRequiredKeyword then
        { matched := false, reason := some "Does not contain required keywords" }
      else
        let isEntryLevel := containsKeyword ct ENTRY_LEVEL_KEYWORDS
        let years := extractYears (lowerChars ct)
        let hasAcceptableExperience :=
          match years with
          | [] => true
          | y :: ys => if ys.foldl Nat.max y > 2 then false else true
        let noExperienceMentioned := years.isEmpty
        if !isEntryLevel && !noExperienceMentioned && !hasAcceptableExperience then
          { matched := false, reason := some "Requires more than 2 years experience" }
        else
          let matchedKeyword := INCLUDE_KEYWORDS.find? fun keyword =>
            jsIncludes (lowerChars ct) (lowerChars keyword)
          { matched := true, matchedKeyword := matchedKeyword }

/-- Models `filterJob(job)` from `src/functions/jobChecker.js` (the copy in
`src/services/jobFilter.js` is identical except for a no-op company-name block):
non-Reddit jobs go through the India location gate, Reddit posts must instead
mention India in their text, then both proceed to the five text stages. -/
def filterJob (job : Job) : FilterResult :=
  let ct := combinedText job
  if !(isRedditPost job) then
    if !(isIndiaLocation job) then
      { matched := false, reason := some "Location not in India or preferred cities" }
    else filterAfterLocation ct
  else
    let mentionsIndia := containsKeyword ct INDIA_KEYWORDS || containsKeyword ct PREFERRED_CITIES
    if !mentionsIndia then
      { matched := false, reason := some "Reddit post does not mention India" }
    else filterAfterLocation ct

/-- Models `getDaysSince(jobDate)` relative to wall-clock `now` (epoch ms):
`none` stands for the JS `Infinity` returned for missing or invalid dates;
otherwise the non-negative fractional number of days since posting. -/
def getDaysSince (now : Int) (jobDate : DateInput) : Option ℚ :=
  if isFalsyDate jobDate then none
  else
    match toMs jobDate with
    | none => none
    | some ms => some (max 0 (((now - ms : Int) : ℚ) / (1000 * 60 * 60 * 24)))

/-- Comparison `daysSincePost <= q` with `none` as `Infinity` (always false). -/
def daysLE : Option ℚ → ℚ → Bool
  | none, _ => false
  | some d, q => decide (d ≤ q)

/-- Models `isWithinTimeWindow(jobDate, days)` relative to wall-clock `now`:
missing or invalid dates are included (fail-open); otherwise the fractional
days-since value must be at most `days` and non-negative. -/
def isWithinTimeWindow (now : Int) (jobDate : DateInput) (days : ℚ) : Bool :=
  if isFalsyDate jobDate then true
  else
    match toMs jobDate with
    | none => true
    | some ms =>
      let diffTime : Int := now - ms
      let diffDays : ℚ := (diffTime : ℚ) / (1000 * 60 * 60 * 24)
      decide (diffDays ≤ days) && decide (diffDays ≥ 0)

/-- Models `isJobNewerThan(jobDate, lastRunTimestamp)`: missing job date or missing
watermark includes the job (fail-open); invalid parses include it; otherwise the
job date must be strictly after the watermark. -/
def isJobNewerThan (jobDate lastRun : DateInput) : Bool :=
  if isFalsyDate jobDate then true
  else if isFalsyDate lastRun then true
  else
    match toMs jobDate, newDateMs lastRun with
    | some jms, some lms => decide (jms > lms)
    | _, _ => true

/-- The client-side filtering step of `fetchJobsIncremental` in
`src/services/jobFetcher.js`, applied to the jobs gathered from all sources:
with no watermark (first run) the fallback time window applies, otherwise only
jobs newer than the watermark are kept. -/
def fetchJobsIncrementalFilter (now : Int) (lastRunTimestamp : DateInput) (fallbackDays : ℚ)
    (allJobs : List Job) : List Job :=
  if isFalsyDate lastRunTimestamp then
    allJobs.filter fun job => isWithinTimeWindow now job.date fallbackDays
  else
    allJobs.filter fun job => isJobNewerThan job.date lastRunTimestamp

/-- Truthiness-and-placeholder test `job.salary && job.salary !== 'Not disclosed'`. -/
def salaryDisclosed : Option String → Bool
  | none => false
  | some s => s != "" && s != "Not disclosed"

/-- Models `scoreJob(job)` relative to wall-clock `now`: the additive relevance
score of `src/functions/jobChecker.js` (identical in `src/services/jobScorer.js`),
rendered as the sum of its independent bonus terms in source order. -/
def scoreJob (now : Int) (job : Job) : Nat :=
  let text := lowerChars (combinedText job)
  let daysSincePost := getDaysSince now job.date
  let location := lowerChars job.location
  (if jsIncludes text "azure".toList then 30 else 0) +
  (if jsIncludes text "cloud".toList then 20 else 0) +
  (if jsIncludes text "security".toList then 20 else 0) +
  (if jsIncludes text "devsecops".toList then 25 else 0) +
  (if jsIncludes text "devops".toList then 15 else 0) +
  (if jsIncludes text "cybersecurity".toList then 20 else 0) +
  (if jsIncludes text "fresher".toList || jsIncludes text "intern".toList then 20 else 0) +
  (if jsIncludes text "0-1".toList || jsIncludes text "entry level".toList ||
      jsIncludes text "entry-level".toList then 15 else 0) +
  (if jsIncludes text "graduate".toList || jsIncludes text "internship".toList then 15 else 0) +
  (if isFresherFriendlyCompany job then 15 else 0) +
  (if daysLE daysSincePost 1 then 20
   else if daysLE daysSincePost 3 then 10
   else if daysLE daysSincePost 7 then 5
   else 0) +
  (if salaryDisclosed job.salary then 10 else 0) +
  (if jsIncludes location "bangalore".toList || jsIncludes location "bengaluru".toList then 5 else 0) +
  (if jsIncludes location "pune".toList || jsIncludes location "hyderabad".toList then 5 else 0) +
  (if jsIncludes location "remote".toList then 8 else 0) +
  (if job.job_type != "" && jsIncludes (lowerChars job.job_type) "full-time".toList then 5 else 0)

/-- Truncation to a 32-bit word. -/
def w32 (x : Nat) : Nat := x % 4294967296

/-- Right rotation of a 32-bit word. -/
def rotr32 (n x : Nat) : Nat := w32 ((x >>> n) ||| (x <<< (32 - n)))

/-- SHA-256 round constants (FIPS 180-4), written in decimal. -/
def sha256K : List Nat := [
  1116352408, 1899447441, 3049323471, 3921009573, 961987163, 1508970993,
  2453635748, 2870763221, 3624381080, 310598401, 607225278, 1426881987,
  1925078388, 2162078206, 2614888103, 3248222580, 3835390401, 4022224774,
  264347078, 604807628, 770255983, 1249150122, 1555081692, 1996064986,
  2554220882, 2821834349, 2952996808, 3210313671, 3336571891, 3584528711,
  113926993, 338241895, 666307205, 773529912, 1294757372, 1396182291,
  1695183700, 1986661051, 2177026350, 2456956037, 2730485921, 2820302411,
  3259730800, 3345764771, 3516065817, 3600352804, 4094571909, 275423344,
  430227734, 506948616, 659060556, 883997877, 958139571, 1322822218,
  1537002063, 1747873779, 1955562222, 2024104815, 2227730452, 2361852424,
  2428436474, 2756734187, 3204031479, 3329325298]

/-- SHA-256 initial hash state (FIPS 180-4), written in decimal. -/
def sha256H0 : List Nat := [
  1779033703, 3144134277, 1013904242, 2773480762,
  1359893119, 2600822924, 528734635, 1541459225]

def chF (x y z : Nat) : Nat := (x &&& y) ^^^ ((x ^^^ 0xffffffff) &&& z)

def majF (x y z : Nat) : Nat := (x &&& y) ^^^ (x &&& z) ^^^ (y &&& z)

def smallSigma0 (x : Nat) : Nat := (rotr32 7 x) ^^^ (rotr32 18 x) ^^^ (x >>> 3)

def smallSigma1 (x : Nat) : Nat := (rotr32 17 x) ^^^ (rotr32 19 x) ^^^ (x >>> 10)

def bigSigma0 (x : Nat) : Nat := (rotr32 2 x) ^^^ (rotr32 13 x) ^^^ (rotr32 22 x)

def bigSigma1 (x : Nat) : Nat := (rotr32 6 x) ^^^ (rotr32 11 x) ^^^ (rotr32 25 x)

/-- Big-endian byte rendering of `x` on `k` bytes. -/
def beBytes : Nat → Nat → List Nat
  | 0, _ => []
  | k + 1, x => beBytes k (x / 256) ++ [x % 256]

/-- SHA-256 message padding: append 0x80, zero bytes up to 56 mod 64, then the
bit length on 8 big-endian bytes. -/
def sha256Pad (msg : List Nat) : List Nat :=
  let L := msg.length
  let zeros := (120 - ((L + 1) % 64)) % 64
  msg ++ [0x80] ++ List.replicate zeros 0 ++ beBytes 8 (L * 8)

/-- Big-endian packing of bytes into 32-bit words. -/
def bytesToWords : List Nat → List Nat
  | b0 :: b1 :: b2 :: b3 :: rest => (((b0 * 256 + b1) * 256 + b2) * 256 + b3) :: bytesToWords rest
  | _ => []

/-- Extend the 16 block words by `count` further schedule words. -/
def sha256Extend (acc : List Nat) (count : Nat) : List Nat :=
  (List.range count).foldl
    (fun a _ =>
      a ++ [w32 (smallSigma1 (a.getD (a.length - 2) 0) + a.getD (a.length - 7) 0 +
        smallSigma0 (a.getD (a.length - 15) 0) + a.getD (a.length - 16) 0)])
    acc

/-- One SHA-256 compression of a 64-byte block into the running state. -/
def sha256Compress (h : List Nat) (block : List Nat) : List Nat :=
  let w := sha256Extend (bytesToWords block) 48
  let step := fun (st : List Nat) (kw : Nat × Nat) =>
    match st with
    | [a, b, c, d, e, f, g, hh] =>
      let t1 := w32 (hh + bigSigma1 e + chF e f g + kw.1 + kw.2)
      let t2 := w32 (bigSigma0 a + majF a b c)
      [w32 (t1 + t2), a, b, c, w32 (d + t1), e, f, g]
    | other => other
  let st := (sha256K.zip w).foldl step h
  (h.zip st).map fun p => w32 (p.1 + p.2)

/-- Split a byte list into 64-byte blocks; the fuel is instantiated with the
list length, which suffices since every step consumes at least one byte. -/
def chunks64Aux : Nat → List Nat → List (List Nat)
  | 0, _ => []
  | _ + 1, [] => []
  | fuel + 1, bs => bs.take 64 :: chunks64Aux fuel (bs.drop 64)

/-- The eight 32-bit words of the SHA-256 digest of a byte sequence. -/
def sha256Words (msg : List Nat) : List Nat :=
  (chunks64Aux (sha256Pad msg).length (sha256Pad msg)).foldl sha256Compress sha256H0

def hexDigit (n : Nat) : Char :=
  if n < 10 then Char.ofNat (48 + n) else Char.ofNat (87 + n)

def wordHex (x : Nat) : List Char :=
  (List.range 8).map fun i => hexDigit ((x >>> (28 - 4 * i)) % 16)

/-- Models `crypto.createHash('sha256').update(s).digest('hex')` of the Node
standard library (an external collaborator of this repository): the lowercase
hex digest of the SHA-256 of the UTF-8 bytes of `s`.  The theorems below use
only that this is a function of `s`; its internals are the FIPS 180-4
algorithm the library implements. -/
def sha256Hex (s : String) : String :=
  ⟨((sha256Words (s.toUTF8.toList.map UInt8.toNat)).map wordHex).flatten⟩

/-- The concatenation `(job.url || '') + (job.title || '') + (job.company_name || '')`
that `generateStableId` hashes.  Note the three fields are joined with no
separator. -/
def uniqueString (job : Job) : String :=
  job.url ++ job.title ++ job.company_name

/-- Models `generateStableId(job)` from `src/models/job.js` and
`src/functions/jobChecker.js`: the SHA-256 hex digest of the unseparated
concatenation of url, title and company name. -/
def generateStableId (job : Job) : String :=
  sha256Hex (uniqueString job)

/-- A matched job as pushed onto `matchedJobs` by the handler: the job enriched
with its stable slug, the matched keyword and the relevance score. -/
structure ScoredJob where
  job : Job
  slug : String
  matchedKeyword : Option String
  relevanceScore : Nat
deriving DecidableEq

/-- The handler state threaded through the dedup/filter loop: the in-run seen
set, the duplicates counter, the number of persistent-store existence lookups
performed (each `isJobProcessed` call), and the matches collected so far. -/
structure ScanState where
  seenInThisRun : List String
  duplicatesSkipped : Nat
  storeLookups : Nat
  matchedJobs : List ScoredJob
deriving DecidableEq

/-- The dedup/filter loop of the `jobChecker` handler: per job, compute the
stable id, skip on the in-run seen set, otherwise record the id as seen, run
`filterJob`, and for matches consult the persistent store (modelled as the list
of row keys it holds) before scoring and collecting.  The store lookup happens
only for jobs that pass the filter and are not in-run duplicates, exactly as in
the source. -/
def scanJobs (now : Int) (store : List String) : List Job → ScanState → ScanState
  | [], st => st
  | job :: rest, st =>
    let jobSlug := generateStableId job
    if jobSlug ∈ st.seenInThisRun then
      scanJobs now store rest { st with duplicatesSkipped := st.duplicatesSkipped + 1 }
    else
      let st1 := { st with seenInThisRun := st.seenInThisRun ++ [jobSlug] }
      let filterResult := filterJob job
      if filterResult.matched then
        let st2 := { st1 with storeLookups := st1.storeLookups + 1 }
        if jobSlug ∈ store then
          scanJobs now store rest { st2 with duplicatesSkipped := st2.duplicatesSkipped + 1 }
        else
          scanJobs now store rest
            { st2 with matchedJobs := st2.matchedJobs ++
                [⟨job, jobSlug, filterResult.matchedKeyword, scoreJob now job⟩] }
      else
        scanJobs now store rest st1

/-- Models `markJobAsProcessed`: `createEntity` adds a row keyed by the slug; an
already-existing row makes `createEntity` throw, which the function catches and
swallows, leaving the store unchanged. -/
def markJobAsProcessed (store : List String) (slug : String) : List String :=
  if slug ∈ store then store else store ++ [slug]

/-- The outcome of the alert loop: the persistent store contents, the number of
alerts sent, and the number of per-job errors logged. -/
structure AlertResult where
  store : List String
  sent : Nat
  errors : Nat
deriving DecidableEq

/-- The alert loop of the `jobChecker` handler: for each matched job, attempt the
Telegram send (`sendOk` tells whether the external send succeeds or throws);
on success mark the job processed and count it, on failure count the error and
continue with the next job.  The marking is sequenced strictly after a
successful send, as in the source `try` block. -/
def alertLoop (sendOk : ScoredJob → Bool) :
    List ScoredJob → List String → Nat → Nat → AlertResult
  | [], store, sentCount, errorCount => ⟨store, sentCount, errorCount⟩
  | j :: rest, store, sentCount, errorCount =>
    if sendOk j then
      alertLoop sendOk rest (markJobAsProcessed store j.slug) (sentCount + 1) errorCount
    else
      alertLoop sendOk rest store sentCount (errorCount + 1)

/-- Stable insertion into a descending-by-score list: `x` goes after every
element scoring at least as much, matching the comparator
`(a, b) => b.relevanceScore - a.relevanceScore` with a stable sort. -/
def insertByScore (x : ScoredJob) : List ScoredJob → List ScoredJob
  | [] => [x]
  | y :: rest =>
    if y.relevanceScore ≥ x.relevanceScore then y :: insertByScore x rest else x :: y :: rest

/-- The handler sort `matchedJobs.sort((a, b) => b.relevanceScore - a.relevanceScore)`. -/
def sortByScore (jobs : List ScoredJob) : List ScoredJob :=
  jobs.foldl (fun acc j => insertByScore j acc) []

/-- The alert phase of the handler: sort the matches by descending score and run
the alert loop with fresh counters. -/
def runAlertPhase (sendOk : ScoredJob → Bool) (store : List String)
    (matchedJobs : List ScoredJob) : AlertResult :=
  alertLoop sendOk (sortByScore matchedJobs) store 0 0

/-- Modelled from the spec: incremental fetch keeps a job exactly when its
posting date is missing (falsy), unparseable, or parses strictly after the
watermark `T` (in epoch ms).  Stated spec-side, to be compared with the
source-side filter. -/
def specKeepsJob (T : Int) (job : Job) : Bool :=
  isFalsyDate job.date ||
    (match toMs job.date with
     | none => true
     | some t => decide (T < t))

/-- Modelled from the spec: the matched keyword a spec-conforming filter would
report, namely the first keyword of INCLUDE_KEYWORDS, in list order, that
matches the combined text under the stage-5 rules (word boundaries for
keywords of length at most 4, substring containment otherwise).  Stated
spec-side, to be compared with the matched keyword the source computes. -/
def specMatchedKeyword (job : Job) : Option String :=
  INCLUDE_KEYWORDS.find? fun keyword => containsKeyword (combinedText job) [keyword]

/-- Witness record for C1: a foreign-located, senior-labelled posting. -/
def jobC1 : Job :=
  { title := "Senior Cloud Engineer", description := "Azure platform team",
    location := "Berlin, Germany", source := "Arbeitnow" }

/-- Counterexample record for C2: text contains "5+ years" in the description and
"Fresher" in the title, passes the location gate. -/
def jobC2cex : Job :=
  { title := "Cloud Engineer Fresher", description := "5+ years preferred",
    location := "India", source := "Arbeitnow" }

/-- Witness record for the amended C2: a high year-count not on the exclusion
list ("7 years") together with the entry-level term "Fresher". -/
def jobC2w : Job :=
  { title := "Cloud Engineer Fresher", description := "our stack is 7 years old",
    location := "India", source := "Arbeitnow" }

/-- Witness records for the amended C3: identical (url, title, company) triples
with different remaining fields. -/
def jobC3a : Job :=
  { title := "DevOps Engineer", company_name := "Acme", url := "https://x/1",
    location := "Pune", date := .noDate }

def jobC3b : Job :=
  { title := "DevOps Engineer", company_name := "Acme", url := "https://x/1",
    location := "Remote", date := .numDate 1717200000 }

/-- Witness records for the amended C3: equal title and company, different urls. -/
def jobC3c : Job :=
  { title := "DevOps Engineer", company_name := "Acme", url := "https://x/1" }

def jobC3d : Job :=
  { title := "DevOps Engineer", company_name := "Acme", url := "https://x/2" }

/-- Counterexample records for C3: different urls and equal titles, yet the same
unseparated concatenation "abbc" and hence the same stable id. -/
def jobC3e : Job := { title := "b", company_name := "bc", url := "a" }

def jobC3f : Job := { title := "b", company_name := "c", url := "ab" }

/-- Witness watermark for C4: 2024-06-02T00:00:00Z. -/
def lastRunC4 : DateInput := .strDate "2024-06-02T00:00:00.000Z" (some 1717286400000)

/-- Witness record for C4: posted one day before the watermark. -/
def jobOldC4 : Job :=
  { title := "Old posting", date := .strDate "2024-06-01T00:00:00.000Z" (some 1717200000000) }

/-- Witness record for C4: posted one day after the watermark. -/
def jobNewC4 : Job :=
  { title := "New posting", date := .strDate "2024-06-03T00:00:00.000Z" (some 1717372800000) }

/-- Witness records for C5: three matched jobs, the middle one failing its send. -/
def sjC5a : ScoredJob :=
  ⟨{ title := "A" }, "slug-a", some "Azure", 50⟩

def sjC5bad : ScoredJob :=
  ⟨{ title := "B" }, "slug-bad", some "DevOps", 40⟩

def sjC5c : ScoredJob :=
  ⟨{ title := "C" }, "slug-c", some "Security", 30⟩

/-- Witness send outcome for C5: every send succeeds except the one for "slug-bad". -/
def sendOkC5 : ScoredJob → Bool := fun j => j.slug != "slug-bad"

/-- Counterexample record for C6: "jigsaws" contains "aws" as a plain substring
but not on a word boundary, while "Cloud Engineer" matches under the stage-5
rules. -/
def jobC6 : Job :=
  { title := "Cloud Engineer", description := "working with jigsaws and Kubernetes",
    location := "India", source := "Arbeitnow" }

/-- Counterexample record for C7: the location names Berlin yet contains the
"Check post" placeholder, which `isIndiaLocation` accepts before the foreign
check. -/
def jobC7cex : Job :=
  { title := "Cloud Engineer Azure", description := "platform team",
    location := "Berlin Check post", source := "Arbeitnow" }

/-- Witness record for the amended C7: a Berlin location that also contains an
India token and a remote token. -/
def jobC7w : Job :=
  { title := "Cloud Engineer", description := "Azure",
    location := "Berlin, India Remote", source := "Arbeitnow" }

/-- Witness record for C9: a posting that passes every filter stage. -/
def jobC9 : Job :=
  { title := "Azure DevOps Engineer Intern", description := "Terraform and Kubernetes",
    location := "Pune", company_name := "Acme", source := "Arbeitnow" }

/-- Witness wall-clock instant for C10: 2024-06-02T00:00:00Z in epoch ms. -/
def nowC10 : Int := 1717286400000

/-- Witness record date for C10: parses one day after `nowC10`. -/
def jdFutureC10 : DateInput := .strDate "2024-06-03T00:00:00.000Z" (some 1717372800000)

theorem isPrefixOf_append_left {p l : List Char} (r : List Char)
    (h : p.isPrefixOf l = true) : p.isPrefixOf (l ++ r) = true := by
  rw [List.isPrefixOf_iff_prefix] at h ⊢
  exact h.trans (List.prefix_append l r)

theorem jsIncludes_nil_pat (t : List Char) : jsIncludes t [] = true := by
  cases t <;> simp [jsIncludes, List.isPrefixOf]

theorem jsIncludes_append_right {t p : List Char} (e : List Char)
    (h : jsIncludes t p = true) : jsIncludes (t ++ e) p = true := by
  induction t with
  | nil =>
    have hp : p = [] := by
      cases p with
      | nil => rfl
      | cons a as => simp [jsIncludes, List.isPrefixOf] at h
    subst hp
    exact jsIncludes_nil_pat e
  | cons c t ih =>
    simp only [jsIncludes, Bool.or_eq_true] at h ⊢
    rcases h with h | h
    · exact Or.inl (isPrefixOf_append_left e h)
    · exact Or.inr (ih h)

theorem jsIncludes_of_boundaryOccurs {p : List Char} :
    ∀ {prev : Option Char} {t : List Char},
      boundaryOccurs p prev t = true → jsIncludes t p = true := by
  intro prev t
  induction t generalizing prev with
  | nil =>
    intro h
    simp only [boundaryOccurs, Bool.and_eq_true] at h
    simpa [jsIncludes] using h.1.1
  | cons c rest ih =>
    intro h
    simp only [boundaryOccurs, Bool.or_eq_true, Bool.and_eq_true] at h
    rcases h with ⟨⟨hpre, _⟩, _⟩ | h
    · simp only [jsIncludes, Bool.or_eq_true]
      exact Or.inl hpre
    · simp only [jsIncludes, Bool.or_eq_true]
      exact Or.inr (ih h)

/-- C1: `filterJob` is a deterministic function of the job record and the static
keyword tables (in this embedding it is a Lean function, so purity is
intrinsic), its stages run in a fixed order, and a non-matching result carries
the first failing stage's reason: every non-Reddit job that fails the
India-location resolution and whose combined text contains a
seniority-exclusion term reports the location failure, not the seniority
failure. -/
theorem filterJob_reports_location_before_seniority (job : Job)
    (hNR : isRedditPost job = false)
    (hLoc : isIndiaLocation job = false)
    (hSen : containsKeyword (combinedText job) EXCLUDE_KEYWORDS = true) :
    filterJob job =
      { matched := false, reason := some "Location not in India or preferred cities" } := by
  simp [filterJob, hNR, hLoc]

/-- Witness for C1: a Berlin-located senior posting reports the location failure. -/
theorem filterJob_reports_location_before_seniority_witness :
    isRedditPost jobC1 = false ∧ isIndiaLocation jobC1 = false ∧
    containsKeyword (combinedText jobC1) EXCLUDE_KEYWORDS = true ∧
    filterJob jobC1 =
      { matched := false, reason := some "Location not in India or preferred cities" } :=
  ⟨by decide, by decide, by decide,
    filterJob_reports_location_before_seniority jobC1 (by decide) (by decide) (by decide)⟩

theorem filterAfterLocation_entry_reason (ct : String)
    (h : containsKeyword ct ENTRY_LEVEL_KEYWORDS = true) :
    (filterAfterLocation ct).reason ≠ some "Requires more than 2 years experience" := by
  simp only [filterAfterLocation, h, Bool.not_true, Bool.false_and, Bool.and_false]
  split_ifs <;> simp_all

/-- C2 (amended): no job containing the literal "5+ years" is ever accepted at
the experience-years stage, because "5+ years" is itself a seniority-exclusion
keyword and such a job is rejected at stage 2, before the experience check
(see the counterexample).  What does hold is the entry-level override for year
counts that are not exclusion keywords: whenever the combined text contains an
entry-level keyword such as "Fresher", `filterJob` never rejects the job with
the experience-years reason, whatever year numbers (for example "7 years")
appear elsewhere in the text. -/
theorem filterJob_entry_level_overrides_years (job : Job)
    (h : containsKeyword (combinedText job) ENTRY_LEVEL_KEYWORDS = true) :
    (filterJob job).reason ≠ some "Requires more than 2 years experience" := by
  have hfal := filterAfterLocation_entry_reason (combinedText job) h
  simp only [filterJob]
  split_ifs <;> simp_all

/-- Counterexample for C2 as stated: this job contains "5+ years" in its
description and "Fresher" in its title, yet `filterJob` rejects it at the
seniority-exclusion stage, so it is never accepted at the experience-years
stage. -/
theorem filterJob_five_plus_years_rejected_early :
    jsIncludes (lowerChars (combinedText jobC2cex)) "5+ years".toList = true ∧
    jsIncludes (lowerChars (combinedText jobC2cex)) "fresher".toList = true ∧
    filterJob jobC2cex =
      { matched := false, reason := some "Excluded due to senior/experience requirement" } := by
  decide

/-- Witness for the amended C2: a job mentioning "7 years" and "Fresher" is not
rejected for experience (it matches outright). -/
theorem filterJob_entry_level_overrides_years_witness :
    containsKeyword (combinedText jobC2w) ENTRY_LEVEL_KEYWORDS = true ∧
    extractYears (lowerChars (combinedText jobC2w)) = [7] ∧
    (filterJob jobC2w).reason ≠ some "Requires more than 2 years experience" ∧
    (filterJob jobC2w).matched = true :=
  ⟨by decide, by decide, filterJob_entry_level_overrides_years jobC2w (by decide), by decide⟩

/-- C3 (amended): `generateStableId` is a function of exactly the triple
(url, title, company name): identical triples always yield the same id.
Distinct URLs alone do not guarantee distinct ids, because the three fields are
concatenated with no separator before hashing (see the counterexample); what
holds is that when the title and the company name both coincide, different URLs
give different hashed strings (and hence distinct ids up to SHA-256 collision). -/
theorem generateStableId_triple (j1 j2 : Job) :
    (j1.url = j2.url → j1.title = j2.title → j1.company_name = j2.company_name →
      generateStableId j1 = generateStableId j2) ∧
    (j1.title = j2.title → j1.company_name = j2.company_name → j1.url ≠ j2.url →
      uniqueString j1 ≠ uniqueString j2) := by
  constructor
  · intro hu ht hc
    unfold generateStableId uniqueString
    rw [hu, ht, hc]
  · intro ht hc hu heq
    apply hu
    have hd : (j1.url.data ++ j1.title.data) ++ j1.company_name.data =
        (j2.url.data ++ j2.title.data) ++ j2.company_name.data := by
      simpa only [uniqueString, String.data_append] using congrArg String.data heq
    rw [ht, hc] at hd
    exact String.ext (List.append_cancel_right (List.append_cancel_right hd))

/-- Counterexample for C3: two postings with different urls ("a" and "ab") and
identical (colliding) titles whose unseparated concatenations both equal "abbc",
so their stable ids are identical. -/
theorem generateStableId_url_collision :
    jobC3e.url ≠ jobC3f.url ∧ jobC3e.title = jobC3f.title ∧
    generateStableId jobC3e = generateStableId jobC3f :=
  ⟨by decide, rfl, congrArg sha256Hex (by decide : uniqueString jobC3e = uniqueString jobC3f)⟩

/-- Witness for the amended C3: identical triples share an id; with equal title
and company, different urls give different hashed strings. -/
theorem generateStableId_triple_witness :
    generateStableId jobC3a = generateStableId jobC3b ∧
    uniqueString jobC3c ≠ uniqueString jobC3d :=
  ⟨(generateStableId_triple jobC3a jobC3b).1 rfl rfl rfl,
   (generateStableId_triple jobC3c jobC3d).2 rfl rfl (by decide)⟩

/-- C4: with a present, parseable watermark `T`, the incremental fetch keeps a
fetched job exactly when its posting date is missing (falsy), unparseable, or
parses strictly after `T` — the source-side filter refines the spec-side
keep predicate. -/
theorem fetchIncremental_keeps (now : Int) (fallbackDays : ℚ) (lastRun : DateInput) (T : Int)
    (jobs : List Job) (job : Job)
    (h1 : isFalsyDate lastRun = false) (h2 : newDateMs lastRun = some T) :
    job ∈ fetchJobsIncrementalFilter now lastRun fallbackDays jobs ↔
      job ∈ jobs ∧ specKeepsJob T job = true := by
  have hkeep : ∀ j : Job, isJobNewerThan j.date lastRun = specKeepsJob T j := by
    intro j
    unfold isJobNewerThan specKeepsJob
    cases hfd : isFalsyDate j.date with
    | true => simp [hfd]
    | false =>
      simp only [hfd, h1, h2, Bool.false_eq_true, if_false, Bool.false_or]
      cases htm : toMs j.date with
      | none => simp
      | some t => simp
  unfold fetchJobsIncrementalFilter
  simp [h1, List.mem_filter, hkeep]

/-- Witness for C4: with the watermark at 2024-06-02, the job posted 2024-06-03
is kept and the job posted 2024-06-01 is dropped. -/
theorem fetchIncremental_keeps_witness :
    jobNewC4 ∈ fetchJobsIncrementalFilter 1717300000000 lastRunC4 30 [jobOldC4, jobNewC4] ∧
    jobOldC4 ∉ fetchJobsIncrementalFilter 1717300000000 lastRunC4 30 [jobOldC4, jobNewC4] := by
  constructor
  · exact (fetchIncremental_keeps 1717300000000 30 lastRunC4 1717286400000
      [jobOldC4, jobNewC4] jobNewC4 (by decide) rfl).mpr ⟨by decide, by decide⟩
  · intro hmem
    have h := (fetchIncremental_keeps 1717300000000 30 lastRunC4 1717286400000
      [jobOldC4, jobNewC4] jobOldC4 (by decide) rfl).mp hmem
    exact absurd h.2 (by decide)

theorem alertLoop_store_foldl (sendOk : ScoredJob → Bool) :
    ∀ (jobs : List ScoredJob) (store : List String) (s e : Nat),
      (alertLoop sendOk jobs store s e).store =
        jobs.foldl (fun st k => if sendOk k then markJobAsProcessed st k.slug else st) store := by
  intro jobs
  induction jobs with
  | nil => intro store s e; rfl
  | cons j rest ih =>
    intro store s e
    unfold alertLoop
    cases hs : sendOk j <;> simp [hs, ih]

theorem alertLoop_counts (sendOk : ScoredJob → Bool) :
    ∀ (jobs : List ScoredJob) (store : List String) (s e : Nat),
      (alertLoop sendOk jobs store s e).sent + (alertLoop sendOk jobs store s e).errors =
        s + e + jobs.length := by
  intro jobs
  induction jobs with
  | nil => intro store s e; rfl
  | cons j rest ih =>
    intro store s e
    unfold alertLoop
    cases hs : sendOk j <;> simp [hs, ih] <;> omega

theorem slug_not_mem_foldl (sendOk : ScoredJob → Bool) (slug : String) :
    ∀ (jobs : List ScoredJob) (st : List String),
      slug ∉ st → (∀ k ∈ jobs, sendOk k = true → k.slug ≠ slug) →
      slug ∉ jobs.foldl (fun st k => if sendOk k then markJobAsProcessed st k.slug else st) st := by
  intro jobs
  induction jobs with
  | nil => intro st h _; simpa using h
  | cons j rest ih =>
    intro st hst hall
    simp only [List.foldl_cons]
    apply ih
    · cases hs : sendOk j
      · simpa [hs] using hst
      · have hne := hall j (by simp) hs
        simp only [hs, if_true, markJobAsProcessed]
        split_ifs with hmem
        · exact hst
        · intro hin
          rcases List.mem_append.mp hin with hin | hin
          · exact hst hin
          · exact hne (List.mem_singleton.mp hin).symm
    · intro k hk
      exact hall k (by simp [hk])

/-- C5: in the alert loop a job is marked processed only after its send succeeds,
never before: for every job whose send fails (and whose slug is not otherwise in
play), that slug is absent from the final store, and the loop still processes
every job in the batch (each one is counted either as sent or as an error). -/
theorem alertLoop_failed_send_not_marked (sendOk : ScoredJob → Bool)
    (jobs : List ScoredJob) (store : List String) (j : ScoredJob)
    (hmem : j ∈ jobs) (hfail : sendOk j = false)
    (hfresh : j.slug ∉ store)
    (hnoalias : ∀ k ∈ jobs, sendOk k = true → k.slug ≠ j.slug) :
    j.slug ∉ (alertLoop sendOk jobs store 0 0).store ∧
    (alertLoop sendOk jobs store 0 0).sent + (alertLoop sendOk jobs store 0 0).errors
      = jobs.length := by
  constructor
  · rw [alertLoop_store_foldl]
    exact slug_not_mem_foldl sendOk j.slug jobs store hfresh hnoalias
  · simpa using alertLoop_counts sendOk jobs store 0 0

/-- Witness for C5: of three queued alerts the middle send fails; its slug is
never persisted and all three jobs are accounted for. -/
theorem alertLoop_failed_send_not_marked_witness :
    sjC5bad ∈ [sjC5a, sjC5bad, sjC5c] ∧ sendOkC5 sjC5bad = false ∧
    "slug-bad" ∉ (alertLoop sendOkC5 [sjC5a, sjC5bad, sjC5c] [] 0 0).store ∧
    (alertLoop sendOkC5 [sjC5a, sjC5bad, sjC5c] [] 0 0).sent +
      (alertLoop sendOkC5 [sjC5a, sjC5bad, sjC5c] [] 0 0).errors = 3 := by
  have h := alertLoop_failed_send_not_marked sendOkC5 [sjC5a, sjC5bad, sjC5c] [] sjC5bad
    (by decide) (by decide) (by decide) (by decide)
  exact ⟨by decide, by decide, h.1, by simpa using h.2⟩

theorem filterAfterLocation_matched (ct : String)
    (h : (filterAfterLocation ct).matched = true) :
    containsKeyword ct INCLUDE_KEYWORDS = true ∧
    (filterAfterLocation ct).matchedKeyword =
      INCLUDE_KEYWORDS.find? fun keyword => jsIncludes (lowerChars ct) (lowerChars keyword) := by
  simp only [filterAfterLocation] at h ⊢
  split_ifs at h ⊢ <;> simp_all

theorem includeKeyword_find_isSome (ct : String)
    (h : containsKeyword ct INCLUDE_KEYWORDS = true) :
    (INCLUDE_KEYWORDS.find? fun keyword =>
      jsIncludes (lowerChars ct) (lowerChars keyword)).isSome := by
  rw [List.find?_isSome]
  unfold containsKeyword at h
  split_ifs at h with hemp
  rw [List.any_eq_true] at h
  obtain ⟨kw, hkwmem, hkw⟩ := h
  refine ⟨kw, hkwmem, ?_⟩
  by_cases hlen : (lowerChars kw).length ≤ 4
  · rw [if_pos hlen] at hkw
    unfold regexWordBoundaryTest at hkw
    have hsub := jsIncludes_of_boundaryOccurs hkw
    have hsp : regexLiteral (lowerChars kw) = lowerChars kw := by
      have hall : ∀ k ∈ INCLUDE_KEYWORDS, regexLiteral (lowerChars k) = lowerChars k := by
        decide
      exact hall kw hkwmem
    rwa [hsp] at hsub
  · rw [if_neg hlen] at hkw
    exact hkw

/-- C6 (amended): for every job that `filterJob` accepts, the reported
matchedKeyword is the first keyword of INCLUDE_KEYWORDS, in list order, whose
lowercase form is a plain substring of the lowercase combined text — not the
stage-5 rule: the word-boundary refinement for short keywords is not applied in
the matched-keyword lookup (see the counterexample).  Since stage 5 passed and
every word-boundary match is in particular a substring match, some keyword is
always found. -/
theorem filterJob_matchedKeyword_first_substring (job : Job)
    (h : (filterJob job).matched = true) :
    (filterJob job).matchedKeyword =
      INCLUDE_KEYWORDS.find? (fun keyword =>
        jsIncludes (lowerChars (combinedText job)) (lowerChars keyword)) ∧
    ((filterJob job).matchedKeyword).isSome := by
  have heq : filterJob job = filterAfterLocation (combinedText job) := by
    simp only [filterJob] at h ⊢
    split_ifs at h ⊢ <;> simp_all
  rw [heq] at h ⊢
  obtain ⟨hinc, hmk⟩ := filterAfterLocation_matched _ h
  rw [hmk]
  exact ⟨rfl, includeKeyword_find_isSome _ hinc⟩

/-- Counterexample for C6 as stated: `filterJob` accepts this job, stage 5
matches "Cloud Engineer" first under the word-boundary rules (the text has no
word-boundary occurrence of "AWS"), yet the reported matchedKeyword is "AWS",
found by plain substring inside "jigsaws". -/
theorem filterJob_matchedKeyword_not_stage5_rule :
    (filterJob jobC6).matched = true ∧
    (filterJob jobC6).matchedKeyword = some "AWS" ∧
    specMatchedKeyword jobC6 = some "Cloud Engineer" ∧
    (filterJob jobC6).matchedKeyword ≠ specMatchedKeyword jobC6 := by
  decide

/-- Witness for the amended C6 at the accepted job `jobC6`. -/
theorem filterJob_matchedKeyword_first_substring_witness :
    (filterJob jobC6).matched = true ∧
    (filterJob jobC6).matchedKeyword =
      INCLUDE_KEYWORDS.find? (fun keyword =>
        jsIncludes (lowerChars (combinedText jobC6)) (lowerChars keyword)) ∧
    ((filterJob jobC6).matchedKeyword).isSome := by
  have h := filterJob_matchedKeyword_first_substring jobC6 (by decide)
  exact ⟨by decide, h.1, h.2⟩

/-- C7 (amended): for every job whose location string contains a known foreign
token, the India-location resolution rejects it regardless of any India,
preferred-city or remote token also present — unless the location contains the
literal "Check post" (the Reddit placeholder), which `isIndiaLocation` accepts
before the foreign check (see the counterexample).  For non-Reddit jobs the
rejection surfaces as the location-stage failure of `filterJob`. -/
theorem isIndiaLocation_foreign_rejected (job : Job)
    (hcp : jsIncludes job.location.toList "Check post".toList = false)
    (hforeign : foreignIndicators.any
      (fun f => jsIncludes (lowerChars job.location) f.toList) = true) :
    isIndiaLocation job = false ∧
    (isRedditPost job = false →
      filterJob job =
        { matched := false, reason := some "Location not in India or preferred cities" }) := by
  have hne : (job.location == "") = false := by
    cases he : job.location == "" with
    | false => rfl
    | true =>
      exfalso
      have hempty : job.location = "" := by simpa using he
      rw [hempty] at hforeign
      exact absurd hforeign (by decide)
  have hloc : isIndiaLocation job = false := by
    simp only [isIndiaLocation]
    rw [if_neg (by simp [hne]), if_neg (by simpa using hcp), if_pos hforeign]
  refine ⟨hloc, fun hnr => ?_⟩
  simp [filterJob, hnr, hloc]

/-- Counterexample for C7 as stated: a non-Reddit job whose location contains
"Berlin" but also the "Check post" placeholder is accepted by the location
stage (and here matches outright), because the placeholder check precedes the
foreign-indicator check. -/
theorem isIndiaLocation_foreign_not_always_rejected :
    isRedditPost jobC7cex = false ∧
    jsIncludes (lowerChars jobC7cex.location) "berlin".toList = true ∧
    isIndiaLocation jobC7cex = true ∧
    filterJob jobC7cex = { matched := true, matchedKeyword := some "Azure" } := by
  decide

/-- Witness for the amended C7: a location containing "Berlin", an India token
and a remote token, without the placeholder, is rejected at the location stage. -/
theorem isIndiaLocation_foreign_rejected_witness :
    jsIncludes (lowerChars jobC7w.location) "berlin".toList = true ∧
    jsIncludes (lowerChars jobC7w.location) "india".toList = true ∧
    jsIncludes (lowerChars jobC7w.location) "remote".toList = true ∧
    isIndiaLocation jobC7w = false ∧
    filterJob jobC7w =
      { matched := false, reason := some "Location not in India or preferred cities" } := by
  have h := isIndiaLocation_foreign_rejected jobC7w (by decide) (by decide)
  exact ⟨by decide, by decide, by decide, h.1, h.2 (by decide)⟩

theorem lowerChars_append (a b : String) :
    lowerChars (a ++ b) = lowerChars a ++ lowerChars b := by
  simp [lowerChars, String.data_append]

theorem combinedText_append_desc (job : Job) (s : String) :
    combinedText { job with description := job.description ++ s } = combinedText job ++ s := by
  apply String.ext
  simp [combinedText, String.data_append]

theorem ite_zero_mono (b1 b2 : Bool) (n : Nat) (h : b1 = true → b2 = true) :
    (if b1 then n else 0) ≤ (if b2 then n else 0) := by
  cases b1 with
  | false => simp
  | true => rw [h rfl]

theorem jsIncludes_or2_mono (e t p q : List Char)
    (h : (jsIncludes t p || jsIncludes t q) = true) :
    (jsIncludes (t ++ e) p || jsIncludes (t ++ e) q) = true := by
  have h2 : jsIncludes t p = true ∨ jsIncludes t q = true := by simpa using h
  rcases h2 with h2 | h2 <;> simp [jsIncludes_append_right e h2]

theorem jsIncludes_or3_mono (e t p q r : List Char)
    (h : (jsIncludes t p || jsIncludes t q || jsIncludes t r) = true) :
    (jsIncludes (t ++ e) p || jsIncludes (t ++ e) q || jsIncludes (t ++ e) r) = true := by
  have h3 : jsIncludes t p = true ∨ jsIncludes t q = true ∨ jsIncludes t r = true := by
    simpa [or_assoc] using h
  rcases h3 with h3 | h3 | h3 <;> simp [jsIncludes_append_right e h3]

/-- C8: `scoreJob` is monotone in the job text: appending any string — in
particular any recognized scoring keyword — to an otherwise-fixed description
never decreases the score, because every text bonus is an independent additive
substring check that appending can only switch on, and the non-text bonuses
(company, recency, salary, location, job type) are unchanged. -/
theorem scoreJob_append_mono (now : Int) (job : Job) (s : String) :
    scoreJob now job ≤ scoreJob now { job with description := job.description ++ s } := by
  have htext : lowerChars (combinedText { job with description := job.description ++ s }) =
      lowerChars (combinedText job) ++ lowerChars s := by
    rw [combinedText_append_desc, lowerChars_append]
  simp only [scoreJob]
  rw [htext]
  repeat' apply Nat.add_le_add
  all_goals
    first
      | exact le_refl _
      | (apply ite_zero_mono
         intro hb
         first
           | exact jsIncludes_append_right _ hb
           | exact jsIncludes_or2_mono _ _ _ _ hb
           | exact jsIncludes_or3_mono _ _ _ _ _ hb)

/-- C9: if the same posting appears twice in one batch and its stable id is not
in the persistent store, the scan loop collects it exactly once — the second
occurrence is skipped by the in-run seen set with no store lookup (one lookup
total), one duplicate is counted — and the alert phase on the collected match
(with a succeeding send) sends exactly one alert and persists exactly one
record. -/
theorem scanTwice_single_alert (now : Int) (store : List String) (job : Job)
    (hMatch : (filterJob job).matched = true)
    (hFresh : generateStableId job ∉ store) :
    scanJobs now store [job, job] ⟨[], 0, 0, []⟩ =
      ⟨[generateStableId job], 1, 1,
        [⟨job, generateStableId job, (filterJob job).matchedKeyword, scoreJob now job⟩]⟩ ∧
    runAlertPhase (fun _ => true) store
      [⟨job, generateStableId job, (filterJob job).matchedKeyword, scoreJob now job⟩] =
      ⟨store ++ [generateStableId job], 1, 0⟩ := by
  constructor
  · simp [scanJobs, hMatch, hFresh]
  · simp [runAlertPhase, sortByScore, insertByScore, alertLoop, markJobAsProcessed, hFresh]

/-- Witness for C9 at a matching posting listed twice against an empty store. -/
theorem scanTwice_single_alert_witness :
    (filterJob jobC9).matched = true ∧
    (scanJobs 1717300000000 [] [jobC9, jobC9] ⟨[], 0, 0, []⟩).duplicatesSkipped = 1 ∧
    (scanJobs 1717300000000 [] [jobC9, jobC9] ⟨[], 0, 0, []⟩).storeLookups = 1 ∧
    runAlertPhase (fun _ => true) []
      (scanJobs 1717300000000 [] [jobC9, jobC9] ⟨[], 0, 0, []⟩).matchedJobs =
      ⟨[generateStableId jobC9], 1, 0⟩ := by
  have h := scanTwice_single_alert 1717300000000 [] jobC9 (by decide) (by simp)
  refine ⟨by decide, ?_, ?_, ?_⟩
  · rw [h.1]
  · rw [h.1]
  · rw [h.1]
    simpa using h.2

/-- C10: `isWithinTimeWindow` bounds the days-since value on both sides, so a
job whose date parses strictly after the wall clock is excluded for every
window length, despite the general fail-open policy — while a job with a
missing (falsy) or unparseable date is always included. -/
theorem isWithinTimeWindow_future_excluded (now : Int) (jd : DateInput) (t : Int)
    (h1 : isFalsyDate jd = false) (h2 : toMs jd = some t) (h3 : now < t) :
    (∀ days : ℚ, isWithinTimeWindow now jd days = false) ∧
    (∀ days : ℚ, ∀ jd2 : DateInput, isFalsyDate jd2 = true ∨ toMs jd2 = none →
      isWithinTimeWindow now jd2 days = true) := by
  constructor
  · intro days
    unfold isWithinTimeWindow
    rw [if_neg (by simp [h1]), h2]
    have hneg : ((now : ℚ) - (t : ℚ)) / (1000 * 60 * 60 * 24) < 0 := by
      apply div_neg_of_neg_of_pos
      · exact_mod_cast sub_neg.mpr h3
      · norm_num
    simp
    intro _
    exact hneg
  · intro days jd2 h
    rcases h with h | h
    · simp [isWithinTimeWindow, h]
    · cases hf : isFalsyDate jd2 with
      | true => simp [isWithinTimeWindow, hf]
      | false =>
        unfold isWithinTimeWindow
        rw [if_neg (by simp [hf]), h]

/-- Witness for C10: at wall clock 2024-06-02, a posting dated 2024-06-03 is
excluded for both the 30-day and the 1-day windows, while an undated posting
is included. -/
theorem isWithinTimeWindow_future_excluded_witness :
    isWithinTimeWindow nowC10 jdFutureC10 30 = false ∧
    isWithinTimeWindow nowC10 jdFutureC10 1 = false ∧
    isWithinTimeWindow nowC10 DateInput.noDate 30 = true := by
  have h := isWithinTimeWindow_future_excluded nowC10 jdFutureC10 1717372800000
    (by decide) (by decide) (by decide)
  exact ⟨h.1 30, h.1 1, h.2 30 DateInput.noDate (Or.inl (by decide))⟩
